import Mathlib

/-!
# Climbing system character: movement state machine

A shallow embedding of `Source/ClimbingSystem/ClimbingSystemCharacter.cpp`.

* Engine floats are represented by rationals; the development is about the
  control flow and the state updates of the character, not about rounding.
* The state of the character is the record `Character`: the fields of
  `AClimbingSystemCharacter` together with the fields of the movement
  component and of the actor that the source reads or writes.
* Requests handed to the engine (`MoveComponentTo`, `LaunchCharacter`,
  `AddMovementInput`) are recorded in the state, most recent first, with the
  arguments the source passes.
* Everything computed by the engine (collision sweeps, the basis vectors of a
  rotation, `MakeRotFromX`, `DegAcos`, ...) is a field of `Engine`, over which
  every theorem is universally quantified.
-/

namespace ClimbingSystem

/-! ## Data model -/

/-- Engine vector `FVector`. -/
structure FVector where
  X : ℚ
  Y : ℚ
  Z : ℚ
deriving DecidableEq

/-- Engine rotator `FRotator`; the constructor order is pitch, yaw, roll as in the engine. -/
structure FRotator where
  Pitch : ℚ
  Yaw : ℚ
  Roll : ℚ
deriving DecidableEq

/-- Engine enumeration `EMovementMode`. -/
inductive EMovementMode where
  | MOVE_None
  | MOVE_Walking
  | MOVE_NavWalking
  | MOVE_Falling
  | MOVE_Swimming
  | MOVE_Flying
  | MOVE_Custom
deriving DecidableEq

/-- The fields of `FHitResult` read by the source. -/
structure FHitResult where
  Location : FVector
  Normal : FVector
deriving DecidableEq

/-- Arguments of one `UKismetSystemLibrary::MoveComponentTo` call. -/
structure MoveRequest where
  TargetLocation : FVector
  TargetRotation : FRotator
  bEaseOut : Bool
  bEaseIn : Bool
  OverTime : ℚ
deriving DecidableEq

/-- Arguments of one `ACharacter::LaunchCharacter` call. -/
structure LaunchRequest where
  LaunchVelocity : FVector
  bXYOverride : Bool
  bZOverride : Bool
deriving DecidableEq

/-- Arguments of one `APawn::AddMovementInput` call. -/
structure InputRequest where
  WorldDirection : FVector
  ScaleValue : ℚ
deriving DecidableEq

/-- State of the character touched by the source. -/
structure Character where
  /-- Movement component: `MovementMode`. -/
  MovementMode : EMovementMode
  /-- Movement component: `bOrientRotationToMovement`. -/
  bOrientRotationToMovement : Bool
  /-- Movement component: `bNotifyApex`. -/
  bNotifyApex : Bool
  /-- Movement component: `Velocity`. -/
  Velocity : FVector
  /-- Set by `ACharacter::Jump`. -/
  bPressedJump : Bool
  /-- Location of the actor, which is the location of its root capsule. -/
  Location : FVector
  /-- Rotation of the actor. -/
  Rotation : FRotator
  /-- Scaled radius of the capsule. -/
  CapsuleRadius : ℚ
  /-- Scaled half height of the capsule. -/
  CapsuleHalfHeight : ℚ
  MinClimbAngle : ℚ
  MaxClimbAngle : ℚ
  MaxTurnAngle : ℚ
  bCheckForApex : Bool
  bClimbing : Bool
  /-- Recorded `MoveComponentTo` calls, most recent first. -/
  LatentMoves : List MoveRequest
  /-- Recorded `LaunchCharacter` calls, most recent first. -/
  Launches : List LaunchRequest
  /-- Recorded `AddMovementInput` calls, most recent first. -/
  MovementInputs : List InputRequest
deriving DecidableEq

/-- What the engine computes for the source: the world queried by the sweeps and the
math library. -/
structure Engine where
  /-- Forward axis of an actor with the given rotation (`GetActorForwardVector`). -/
  ForwardVector : FRotator → FVector
  /-- Right axis of an actor with the given rotation (`GetActorRightVector`). -/
  RightVector : FRotator → FVector
  /-- Up axis of an actor with the given rotation (`GetActorUpVector`). -/
  UpVector : FRotator → FVector
  /-- Rotator built by `UKismetMathLibrary::MakeRotFromX`. -/
  MakeRotFromX : FVector → FRotator
  /-- Result of `FVector::Normalize` on a vector. -/
  Normalize : FVector → FVector
  /-- Function `UKismetMathLibrary::DegAcos`. -/
  DegAcos : ℚ → ℚ
  /-- Function `UKismetMathLibrary::GetDirectionUnitVector` (from, to). -/
  GetDirectionUnitVector : FVector → FVector → FVector
  /-- Function `UKismetMathLibrary::RInterpTo` (current, target, delta time, speed). -/
  RInterpTo : FRotator → FRotator → ℚ → ℚ → FRotator
  /-- Value of `GetWorld()->GetDeltaSeconds()`. -/
  DeltaSeconds : ℚ
  /-- Sweep of the small box used by `WallTrace` from a start to an end point: whether
  there is a blocking hit, and the hit record left in the out parameter. -/
  SweepBox : FVector → FVector → Bool × FHitResult
  /-- Sweep of a capsule of the given radius and half height from a start to an end
  point: whether there is a blocking hit. -/
  SweepCapsule : FVector → FVector → ℚ → ℚ → Bool

/-! ## Vector arithmetic -/

instance : Add FVector := ⟨fun a b => ⟨a.X + b.X, a.Y + b.Y, a.Z + b.Z⟩⟩

instance : Sub FVector := ⟨fun a b => ⟨a.X - b.X, a.Y - b.Y, a.Z - b.Z⟩⟩

instance : Neg FVector := ⟨fun a => ⟨-a.X, -a.Y, -a.Z⟩⟩

instance : HMul ℚ FVector FVector := ⟨fun k a => ⟨a.X * k, a.Y * k, a.Z * k⟩⟩

instance : HMul FVector ℚ FVector := ⟨fun a k => ⟨a.X * k, a.Y * k, a.Z * k⟩⟩

/-- The vector `FVector::ZeroVector`. -/
def ZeroVector : FVector := ⟨0, 0, 0⟩

/-- Function `UKismetMathLibrary::Dot_VectorVector`. -/
def Dot_VectorVector (A B : FVector) : ℚ := A.X * B.X + A.Y * B.Y + A.Z * B.Z

/-- Function `UKismetMathLibrary::SignOfFloat`: minus one, zero or one. -/
def SignOfFloat (A : ℚ) : ℚ := if 0 < A then 1 else if A < 0 then -1 else 0

/-! ## Engine calls made by the source -/

/-- Call `GetCharacterMovement()->SetMovementMode(NewMovementMode)`. -/
def SetMovementMode (NewMovementMode : EMovementMode) (s : Character) : Character :=
  { s with MovementMode := NewMovementMode }

/-- Call `GetCharacterMovement()->StopMovementImmediately()`: the velocity is zeroed. -/
def StopMovementImmediately (s : Character) : Character :=
  { s with Velocity := ZeroVector }

/-- Call `SetActorRotation(NewRotation, ETeleportType::None)`. -/
def SetActorRotation (NewRotation : FRotator) (s : Character) : Character :=
  { s with Rotation := NewRotation }

/-- Call `UKismetSystemLibrary::MoveComponentTo` on the capsule: the request is
recorded, the move itself happens over the following frames. -/
def MoveComponentTo (TargetLocation : FVector) (TargetRotation : FRotator)
    (bEaseOut bEaseIn : Bool) (OverTime : ℚ) (s : Character) : Character :=
  { s with LatentMoves :=
      ⟨TargetLocation, TargetRotation, bEaseOut, bEaseIn, OverTime⟩ :: s.LatentMoves }

/-- Call `LaunchCharacter(LaunchVelocity, bXYOverride, bZOverride)`: the request is
recorded. -/
def LaunchCharacter (LaunchVelocity : FVector) (bXYOverride bZOverride : Bool)
    (s : Character) : Character :=
  { s with Launches := ⟨LaunchVelocity, bXYOverride, bZOverride⟩ :: s.Launches }

/-- Call `AddMovementInput(WorldDirection, ScaleValue)`: the request is recorded. -/
def AddMovementInput (WorldDirection : FVector) (ScaleValue : ℚ) (s : Character) :
    Character :=
  { s with MovementInputs := ⟨WorldDirection, ScaleValue⟩ :: s.MovementInputs }

/-- Call `ACharacter::Jump()`: the jump is requested for the next movement update. -/
def Jump (s : Character) : Character :=
  { s with bPressedJump := true }

/-! ## The functions of `AClimbingSystemCharacter` -/

/-- Method `AClimbingSystemCharacter::WallTrace`: a box sweep from `Start` to `End`
(the debug line has no effect on the state). -/
def WallTrace (env : Engine) (Start End : FVector) : Bool × FHitResult :=
  env.SweepBox Start End

/-- Method `AClimbingSystemCharacter::ResetRotation`. -/
def ResetRotation (s : Character) : Character :=
  let Rotation := s.Rotation
  SetActorRotation ⟨0, Rotation.Yaw, Rotation.Roll⟩ s

/-- Method `AClimbingSystemCharacter::DetachFromWall`. -/
def DetachFromWall (s : Character) : Character :=
  let s1 := { s with bClimbing := false }
  let s2 :=
    if s1.MovementMode = EMovementMode.MOVE_Flying then
      SetMovementMode EMovementMode.MOVE_Walking s1
    else s1
  let s3 := { s2 with bOrientRotationToMovement := true }
  ResetRotation s3

/-- Method `AClimbingSystemCharacter::AttachToWall`. -/
def AttachToWall (env : Engine) (s : Character) : Character :=
  let Start := s.Location
  let End := Start + (s.CapsuleRadius * 3 * env.ForwardVector s.Rotation)
  let WallTraceHitResult := (WallTrace env Start End).2
  if !(WallTrace env Start End).1 then
    DetachFromWall s
  else
    let s1 := SetMovementMode EMovementMode.MOVE_Flying s
    let s2 := StopMovementImmediately s1
    let s3 := { s2 with bOrientRotationToMovement := false }
    let TargetPosition := s3.CapsuleRadius * WallTraceHitResult.Normal + WallTraceHitResult.Location
    let TargetRotation := env.MakeRotFromX (-WallTraceHitResult.Normal)
    MoveComponentTo TargetPosition TargetRotation false false (1 / 5) s3

/-- Method `AClimbingSystemCharacter::HandleWallGrab`. -/
def HandleWallGrab (env : Engine) (s : Character) : Character :=
  let MovementMode := s.MovementMode
  if MovementMode = EMovementMode.MOVE_Walking ∨ MovementMode = EMovementMode.MOVE_Falling then
    AttachToWall env s
  else if MovementMode = EMovementMode.MOVE_Flying then
    DetachFromWall s
  else s

/-- Method `AClimbingSystemCharacter::VaultUp`; only the first move is issued, the
second one is commented out in the source. -/
def VaultUp (FirstLoc _SecondLoc : FVector) (s : Character) : Character :=
  let s1 := DetachFromWall s
  MoveComponentTo FirstLoc s1.Rotation false true (1 / 2) s1

/-- Method `AClimbingSystemCharacter::WallClimbMovement`. -/
def WallClimbMovement (env : Engine) (Axis : ℚ) (Direction : FVector) (bVertical : Bool)
    (s : Character) : Character :=
  if Axis = 0 then s
  else
    let Offset : ℚ := if bVertical then s.CapsuleHalfHeight * 1 else s.CapsuleRadius * (3 / 2)
    let RayLength : ℚ := 80
    let Start1 := Offset * Direction * Axis + s.Location
    let End1 := Start1 + (s.CapsuleRadius * 2 * env.ForwardVector s.Rotation)
    let Start2 := s.Location
    let End2 := Start2 + RayLength * env.ForwardVector s.Rotation
    let bHit1 := (WallTrace env Start1 End1).1
    let OutHit1 := (WallTrace env Start1 End1).2
    let OutHit2 := (WallTrace env Start2 End2).2
    if bHit1 then
      let N1 := env.Normalize OutHit1.Normal
      let N2 := env.Normalize OutHit2.Normal
      let Angle1F := |env.DegAcos (Dot_VectorVector N1 N2)|
      if Angle1F > s.MaxTurnAngle then s
      else
        let ClimbAngle := (env.MakeRotFromX (-OutHit1.Normal)).Pitch
        if ClimbAngle > s.MaxClimbAngle ∨ ClimbAngle < s.MinClimbAngle then s
        else
          let WorldDirection :=
            env.GetDirectionUnitVector s.Location
              (OutHit1.Normal * s.CapsuleRadius + OutHit1.Location) * SignOfFloat Axis
          let s1 := AddMovementInput WorldDirection Axis s
          let TargetWallRotation := env.MakeRotFromX (-OutHit1.Normal)
          let NewRotation := env.RInterpTo s1.Rotation TargetWallRotation env.DeltaSeconds 5
          let s2 := SetActorRotation NewRotation s1
          { s2 with bClimbing := true }
    else
      if Direction = env.UpVector s.Rotation ∧ Axis > 0 ∧ s.bClimbing = true then
        let Start1 := env.UpVector s.Rotation * (s.CapsuleHalfHeight * 2) + s.Location
          + env.ForwardVector s.Rotation * s.CapsuleRadius * (2 : ℚ)
        let End1 := Start1
        if !(env.SweepCapsule Start1 End1 s.CapsuleRadius s.CapsuleHalfHeight) then
          let SecondLoc := Start1 + env.ForwardVector s.Rotation * (30 : ℚ)
          let FirstLoc := SecondLoc + s.CapsuleRadius * (-2) * env.ForwardVector s.Rotation
          VaultUp FirstLoc SecondLoc s
        else s
      else s

/-- Method `AClimbingSystemCharacter::JumpUpWall`. -/
def JumpUpWall (env : Engine) (s : Character) : Character :=
  let s1 := SetMovementMode EMovementMode.MOVE_Walking s
  let s2 := LaunchCharacter (env.UpVector s1.Rotation * (600 : ℚ)) false false s1
  { s2 with bCheckForApex := true }

/-- Method `AClimbingSystemCharacter::JumpStart`. -/
def JumpStart (env : Engine) (s : Character) : Character :=
  let s1 := { s with bNotifyApex := true }
  if s1.MovementMode = EMovementMode.MOVE_Walking then
    Jump s1
  else if s1.MovementMode = EMovementMode.MOVE_Flying then
    JumpUpWall env s1
  else s1

/-- Method `AClimbingSystemCharacter::CharacterReachedJumpApex`. -/
def CharacterReachedJumpApex (env : Engine) (s : Character) : Character :=
  if s.bCheckForApex then AttachToWall env s else s

/-- Method `AClimbingSystemCharacter::CharacterOnLand`. -/
def CharacterOnLand (s : Character) : Character :=
  { s with bCheckForApex := false }

/-! ## Names for the probes and the angles computed by the source -/

/-- The forward probe of `AttachToWall`: from the capsule centre, three capsule radii
along the forward vector. -/
def AttachProbe (env : Engine) (s : Character) : Bool × FHitResult :=
  WallTrace env s.Location (s.Location + s.CapsuleRadius * 3 * env.ForwardVector s.Rotation)

/-- The point `Start1` of `WallClimbMovement`. -/
def StepStart1 (Axis : ℚ) (Direction : FVector) (bVertical : Bool) (s : Character) : FVector :=
  (if bVertical then s.CapsuleHalfHeight * 1 else s.CapsuleRadius * (3 / 2)) * Direction * Axis
    + s.Location

/-- The first probe of `WallClimbMovement` (`bHit1`, `OutHit1`). -/
def StepHit1 (env : Engine) (Axis : ℚ) (Direction : FVector) (bVertical : Bool)
    (s : Character) : Bool × FHitResult :=
  WallTrace env (StepStart1 Axis Direction bVertical s)
    (StepStart1 Axis Direction bVertical s + s.CapsuleRadius * 2 * env.ForwardVector s.Rotation)

/-- The second probe of `WallClimbMovement` (`bHit2`, `OutHit2`). -/
def StepHit2 (env : Engine) (s : Character) : Bool × FHitResult :=
  WallTrace env s.Location (s.Location + (80 : ℚ) * env.ForwardVector s.Rotation)

/-- The value `Angle1F` of `WallClimbMovement`: the angle between the normals of the two
probes. -/
def TurnAngle (env : Engine) (Axis : ℚ) (Direction : FVector) (bVertical : Bool)
    (s : Character) : ℚ :=
  |env.DegAcos (Dot_VectorVector
    (env.Normalize (StepHit1 env Axis Direction bVertical s).2.Normal)
    (env.Normalize (StepHit2 env s).2.Normal))|

/-- The value `ClimbAngle` of `WallClimbMovement`. -/
def ClimbAngle (env : Engine) (Axis : ℚ) (Direction : FVector) (bVertical : Bool)
    (s : Character) : ℚ :=
  (env.MakeRotFromX (-(StepHit1 env Axis Direction bVertical s).2.Normal)).Pitch

/-- The point probed by the capsule sweep of `WallClimbMovement`. -/
def VaultStart (env : Engine) (s : Character) : FVector :=
  env.UpVector s.Rotation * (s.CapsuleHalfHeight * 2) + s.Location
    + env.ForwardVector s.Rotation * s.CapsuleRadius * (2 : ℚ)

/-- Whether the capsule sweep of `WallClimbMovement` is blocked. -/
def VaultObstructed (env : Engine) (s : Character) : Bool :=
  env.SweepCapsule (VaultStart env s) (VaultStart env s) s.CapsuleRadius s.CapsuleHalfHeight

/-- The point toward which `WallClimbMovement` moves the character: the location of the
first hit, moved off the wall by the capsule radius along the normal. -/
def StepTarget (env : Engine) (Axis : ℚ) (Direction : FVector) (bVertical : Bool)
    (s : Character) : FVector :=
  (StepHit1 env Axis Direction bVertical s).2.Normal * s.CapsuleRadius
    + (StepHit1 env Axis Direction bVertical s).2.Location

/-- The point `SecondLoc` of `WallClimbMovement`: the forward target of the vault. -/
def VaultSecondLoc (env : Engine) (s : Character) : FVector :=
  VaultStart env s + env.ForwardVector s.Rotation * (30 : ℚ)

/-- The point `FirstLoc` of `WallClimbMovement`: the retreat target of the vault. -/
def VaultFirstLoc (env : Engine) (s : Character) : FVector :=
  VaultSecondLoc env s + s.CapsuleRadius * (-2) * env.ForwardVector s.Rotation

/-- The vector that `APawn::AddMovementInput` adds to the pending movement input of the
pawn: the world direction scaled by the scale value. -/
def InputRequest.Applied (r : InputRequest) : FVector :=
  r.WorldDirection * r.ScaleValue

/-! ## Event sequences -/

/-- The events that the player and the host deliver to the character. -/
inductive Action where
  | ToggleGrab
  | Attach
  | Detach
  | JumpPress
  | OnJumpApex
  | OnLanded
  | StepAlongWall (Axis : ℚ) (Direction : FVector) (bVertical : Bool)
  | VaultUp (FirstLoc SecondLoc : FVector)
deriving DecidableEq

/-- Effect of one event on the character, in a given world. -/
def perform (env : Engine) : Action → Character → Character
  | Action.ToggleGrab, s => HandleWallGrab env s
  | Action.Attach, s => AttachToWall env s
  | Action.Detach, s => DetachFromWall s
  | Action.JumpPress, s => JumpStart env s
  | Action.OnJumpApex, s => CharacterReachedJumpApex env s
  | Action.OnLanded, s => CharacterOnLand s
  | Action.StepAlongWall Axis Direction bVertical, s =>
      WallClimbMovement env Axis Direction bVertical s
  | Action.VaultUp FirstLoc SecondLoc, s => VaultUp FirstLoc SecondLoc s

/-- Guard of the facade: `MoveForward` and `MoveRight` call `WallClimbMovement` only
while the movement mode is `MOVE_Flying`; the other events are always enabled. -/
def FacadeGuard : Action → Character → Prop
  | Action.StepAlongWall _ _ _, s => s.MovementMode = EMovementMode.MOVE_Flying
  | _, _ => True

/-- The facade guard, and no jump press while the movement mode is `MOVE_Flying`. -/
def NoWallJumpGuard (a : Action) (s : Character) : Prop :=
  FacadeGuard a s ∧ (a = Action.JumpPress → s.MovementMode ≠ EMovementMode.MOVE_Flying)

/-- Initial states: walking or falling, not climbing, rotation oriented to movement (as
set by the constructor); all other fields are arbitrary. -/
def InitialState (s : Character) : Prop :=
  (s.MovementMode = EMovementMode.MOVE_Walking ∨ s.MovementMode = EMovementMode.MOVE_Falling)
    ∧ s.bClimbing = false ∧ s.bOrientRotationToMovement = true

/-- States reachable from an initial state by events satisfying `allowed`, each event
in a world of its own (the probe results are arbitrary). -/
inductive ReachableBy (allowed : Action → Character → Prop) : Character → Prop where
  | init (s : Character) : InitialState s → ReachableBy allowed s
  | step (env : Engine) (a : Action) (s : Character) :
      ReachableBy allowed s → allowed a s → ReachableBy allowed (perform env a s)

/-- States reachable by the events as the facade issues them. -/
def Reachable (s : Character) : Prop := ReachableBy FacadeGuard s

/-! ## Concrete worlds and states used as test inputs -/

/-- A world with a flat vertical wall, the plane `X = 42` facing the negative `X` axis, in
front of a character that stands upright and looks along the positive `X` axis. The math
functions are exact on the values that occur with this wall: level rotations, the normal
of the wall and the zero vector, cosines -1, 0 and 1, directions parallel to an axis. -/
def flatWallWorld : Engine where
  ForwardVector := fun _ => ⟨1, 0, 0⟩
  RightVector := fun _ => ⟨0, 1, 0⟩
  UpVector := fun _ => ⟨0, 0, 1⟩
  MakeRotFromX := fun _ => ⟨0, 0, 0⟩
  Normalize := fun v => v
  DegAcos := fun c => if c = 1 then 0 else if c = -1 then 180 else 90
  GetDirectionUnitVector := fun From To =>
    if To.X = From.X ∧ To.Y = From.Y then ⟨0, 0, SignOfFloat (To.Z - From.Z)⟩
    else if To.X = From.X ∧ To.Z = From.Z then ⟨0, SignOfFloat (To.Y - From.Y), 0⟩
    else if To.Y = From.Y ∧ To.Z = From.Z then ⟨SignOfFloat (To.X - From.X), 0, 0⟩
    else ZeroVector
  RInterpTo := fun _ Target _ _ => Target
  DeltaSeconds := 1 / 60
  SweepBox := fun Start End =>
    if Start.X ≤ 42 ∧ 42 ≤ End.X then (true, ⟨⟨42, Start.Y, Start.Z⟩, ⟨-1, 0, 0⟩⟩)
    else (false, ⟨ZeroVector, ZeroVector⟩)
  SweepCapsule := fun _ _ _ _ => false

/-- A world without any surface. -/
def emptyWorld : Engine :=
  { flatWallWorld with
    SweepBox := fun _ _ => (false, ⟨ZeroVector, ZeroVector⟩) }

/-- A stand-in for a corner of the wall: the flat wall world in which the angle between
the normals of the two probes is reported as 70 degrees. -/
def cornerWorld : Engine :=
  { flatWallWorld with DegAcos := fun _ => 70 }

/-- A stand-in for an overhang: the flat wall world in which facing the wall is reported
to take a pitch of 60 degrees. -/
def overhangWorld : Engine :=
  { flatWallWorld with MakeRotFromX := fun _ => ⟨60, 0, 0⟩ }

/-- A world without a wall in reach, and with a ceiling that blocks the capsule. -/
def ceilingWorld : Engine :=
  { flatWallWorld with
    SweepBox := fun _ _ => (false, ⟨ZeroVector, ZeroVector⟩)
    SweepCapsule := fun _ _ _ _ => true }

/-- The character as constructed, standing at the origin: capsule of radius 42 and half
height 96, climb angles between -75 and 45 degrees, turn angle at most 65 degrees. -/
def spawned : Character where
  MovementMode := EMovementMode.MOVE_Walking
  bOrientRotationToMovement := true
  bNotifyApex := false
  Velocity := ZeroVector
  bPressedJump := false
  Location := ZeroVector
  Rotation := ⟨0, 0, 0⟩
  CapsuleRadius := 42
  CapsuleHalfHeight := 96
  MinClimbAngle := -75
  MaxClimbAngle := 45
  MaxTurnAngle := 65
  bCheckForApex := false
  bClimbing := false
  LatentMoves := []
  Launches := []
  MovementInputs := []

/-- The character hanging on the flat wall after grabbing it from `spawned`. -/
def onWall : Character :=
  { spawned with
    MovementMode := EMovementMode.MOVE_Flying
    bOrientRotationToMovement := false
    LatentMoves := [⟨⟨0, 0, 0⟩, ⟨0, 0, 0⟩, false, false, 1 / 5⟩] }

/-- The character of `onWall` after one step up the wall. -/
def climbing : Character :=
  { onWall with
    bClimbing := true
    MovementInputs := [⟨⟨0, 0, 1⟩, 1⟩] }

/-- The character of `climbing` after a jump press. -/
def wallJumped : Character :=
  { climbing with
    MovementMode := EMovementMode.MOVE_Walking
    bNotifyApex := true
    bCheckForApex := true
    Launches := [⟨⟨0, 0, 600⟩, false, false⟩] }

/-- The character of `onWall` after a jump press. -/
def wallJumpedAtOnce : Character :=
  { onWall with
    MovementMode := EMovementMode.MOVE_Walking
    bNotifyApex := true
    bCheckForApex := true
    Launches := [⟨⟨0, 0, 600⟩, false, false⟩] }

/-- A climbing character that leans on the wall: pitch 20, yaw 90, roll 30. -/
def leaning : Character :=
  { climbing with Rotation := ⟨20, 90, 30⟩ }

/-! ## Invariants of the event sequences: definitions -/

/-- Holds in every reachable state: on the wall the rotation is not oriented to the
movement, and off the wall a character whose rotation is oriented to the movement is not
climbing. -/
def WallJumpInvariant (s : Character) : Prop :=
  (s.MovementMode = EMovementMode.MOVE_Flying → s.bOrientRotationToMovement = false) ∧
  (s.MovementMode ≠ EMovementMode.MOVE_Flying → s.bOrientRotationToMovement = true →
    s.bClimbing = false)

/-- Holds as long as no jump is pressed on the wall: on the wall the rotation is not
oriented to the movement, off the wall it is and the character is not climbing. -/
def StrictInvariant (s : Character) : Prop :=
  (s.MovementMode = EMovementMode.MOVE_Flying → s.bOrientRotationToMovement = false) ∧
  (s.MovementMode ≠ EMovementMode.MOVE_Flying →
    s.bClimbing = false ∧ s.bOrientRotationToMovement = true)

/-! ## Basic facts -/

theorem FVector.add_def (a b : FVector) : a + b = ⟨a.X + b.X, a.Y + b.Y, a.Z + b.Z⟩ := rfl

theorem FVector.neg_def (a : FVector) : -a = ⟨-a.X, -a.Y, -a.Z⟩ := rfl

theorem FVector.smul_def (k : ℚ) (a : FVector) :
    k * a = (⟨a.X * k, a.Y * k, a.Z * k⟩ : FVector) := rfl

theorem FVector.mul_def (a : FVector) (k : ℚ) :
    a * k = (⟨a.X * k, a.Y * k, a.Z * k⟩ : FVector) := rfl

theorem FVector.add_swap (a b : FVector) : a + b = b + a := by
  simp [FVector.add_def, add_comm]

/-! ## Evaluation of the test inputs -/

theorem attach_spawned : AttachToWall flatWallWorld spawned = onWall := by
  norm_num [AttachToWall, WallTrace, flatWallWorld, spawned, onWall, MoveComponentTo,
    SetMovementMode, StopMovementImmediately, ZeroVector, FVector.add_def, FVector.smul_def,
    FVector.neg_def]

theorem step_onWall :
    WallClimbMovement flatWallWorld 1 ⟨0, 0, 1⟩ true onWall = climbing := by
  norm_num [WallClimbMovement, WallTrace, flatWallWorld, spawned, onWall, climbing,
    AddMovementInput, SetActorRotation, SignOfFloat, Dot_VectorVector, ZeroVector,
    FVector.add_def, FVector.smul_def, FVector.mul_def, FVector.neg_def]

theorem jump_climbing : JumpStart flatWallWorld climbing = wallJumped := by
  norm_num [JumpStart, JumpUpWall, LaunchCharacter, SetMovementMode, flatWallWorld, spawned,
    onWall, climbing, wallJumped, FVector.mul_def,
    (by decide : EMovementMode.MOVE_Flying ≠ EMovementMode.MOVE_Walking)]

theorem jump_onWall : JumpStart flatWallWorld onWall = wallJumpedAtOnce := by
  norm_num [JumpStart, JumpUpWall, LaunchCharacter, SetMovementMode, flatWallWorld, spawned,
    onWall, wallJumpedAtOnce, FVector.mul_def,
    (by decide : EMovementMode.MOVE_Flying ≠ EMovementMode.MOVE_Walking)]


/-! ## What each function does to the mode and to the flags -/

theorem DetachFromWall_bClimbing (s : Character) : (DetachFromWall s).bClimbing = false := by
  simp only [DetachFromWall, ResetRotation, SetActorRotation, SetMovementMode]
  split_ifs <;> rfl

theorem DetachFromWall_orient (s : Character) :
    (DetachFromWall s).bOrientRotationToMovement = true := by
  simp only [DetachFromWall, ResetRotation, SetActorRotation, SetMovementMode]

theorem DetachFromWall_mode_ne (s : Character) :
    (DetachFromWall s).MovementMode ≠ EMovementMode.MOVE_Flying := by
  by_cases h : s.MovementMode = EMovementMode.MOVE_Flying
  · simp [DetachFromWall, ResetRotation, SetActorRotation, SetMovementMode, h]
  · simp [DetachFromWall, ResetRotation, SetActorRotation, SetMovementMode, h]

theorem DetachFromWall_mode_of_ne (s : Character)
    (h : s.MovementMode ≠ EMovementMode.MOVE_Flying) :
    (DetachFromWall s).MovementMode = s.MovementMode := by
  simp only [DetachFromWall, ResetRotation, SetActorRotation, SetMovementMode]
  rw [if_neg h]

theorem DetachFromWall_mode_of_eq (s : Character)
    (h : s.MovementMode = EMovementMode.MOVE_Flying) :
    (DetachFromWall s).MovementMode = EMovementMode.MOVE_Walking := by
  simp only [DetachFromWall, ResetRotation, SetActorRotation, SetMovementMode]
  rw [if_pos h]

theorem DetachFromWall_LatentMoves (s : Character) :
    (DetachFromWall s).LatentMoves = s.LatentMoves := by
  simp only [DetachFromWall, ResetRotation, SetActorRotation, SetMovementMode]
  split_ifs <;> rfl

theorem AttachToWall_miss (env : Engine) (s : Character)
    (h : (WallTrace env s.Location
      (s.Location + s.CapsuleRadius * 3 * env.ForwardVector s.Rotation)).1 = false) :
    AttachToWall env s = DetachFromWall s := by
  simp [AttachToWall, h]

theorem AttachToWall_cases (env : Engine) (s : Character) :
    AttachToWall env s = DetachFromWall s ∨
      ((AttachToWall env s).MovementMode = EMovementMode.MOVE_Flying ∧
        (AttachToWall env s).bOrientRotationToMovement = false ∧
        (AttachToWall env s).bClimbing = s.bClimbing) := by
  unfold AttachToWall
  simp only []
  split_ifs
  · exact Or.inl rfl
  · exact Or.inr ⟨rfl, rfl, rfl⟩

theorem VaultUp_bClimbing (FirstLoc SecondLoc : FVector) (s : Character) :
    (VaultUp FirstLoc SecondLoc s).bClimbing = false := by
  simp [VaultUp, MoveComponentTo, DetachFromWall_bClimbing]

theorem VaultUp_orient (FirstLoc SecondLoc : FVector) (s : Character) :
    (VaultUp FirstLoc SecondLoc s).bOrientRotationToMovement = true := by
  simp [VaultUp, MoveComponentTo, DetachFromWall_orient]

theorem VaultUp_mode_ne (FirstLoc SecondLoc : FVector) (s : Character) :
    (VaultUp FirstLoc SecondLoc s).MovementMode ≠ EMovementMode.MOVE_Flying := by
  simpa [VaultUp, MoveComponentTo] using DetachFromWall_mode_ne s

theorem WallClimbMovement_cases (env : Engine) (Axis : ℚ) (Direction : FVector)
    (bVertical : Bool) (s : Character) :
    WallClimbMovement env Axis Direction bVertical s = s ∨
      ((WallClimbMovement env Axis Direction bVertical s).MovementMode = s.MovementMode ∧
        (WallClimbMovement env Axis Direction bVertical s).bOrientRotationToMovement
          = s.bOrientRotationToMovement ∧
        (WallClimbMovement env Axis Direction bVertical s).bClimbing = true) ∨
      ∃ FirstLoc SecondLoc,
        WallClimbMovement env Axis Direction bVertical s = VaultUp FirstLoc SecondLoc s := by
  unfold WallClimbMovement
  simp only []
  split_ifs <;>
    first
    | exact Or.inl rfl
    | exact Or.inr (Or.inl ⟨rfl, rfl, rfl⟩)
    | exact Or.inr (Or.inr ⟨_, _, rfl⟩)

theorem JumpStart_of_ne (env : Engine) (s : Character)
    (h : s.MovementMode ≠ EMovementMode.MOVE_Flying) :
    (JumpStart env s).MovementMode = s.MovementMode ∧
      (JumpStart env s).bOrientRotationToMovement = s.bOrientRotationToMovement ∧
      (JumpStart env s).bClimbing = s.bClimbing ∧
      (JumpStart env s).bCheckForApex = s.bCheckForApex ∧
      (JumpStart env s).Launches = s.Launches := by
  simp only [JumpStart, Jump]
  rw [if_neg h]
  split_ifs <;> exact ⟨rfl, rfl, rfl, rfl, rfl⟩

theorem JumpStart_of_eq (env : Engine) (s : Character)
    (h : s.MovementMode = EMovementMode.MOVE_Flying) :
    (JumpStart env s).MovementMode = EMovementMode.MOVE_Walking ∧
      (JumpStart env s).bOrientRotationToMovement = s.bOrientRotationToMovement ∧
      (JumpStart env s).bClimbing = s.bClimbing ∧
      (JumpStart env s).bCheckForApex = true ∧
      (JumpStart env s).Launches =
        ⟨env.UpVector s.Rotation * (600 : ℚ), false, false⟩ :: s.Launches := by
  simp only [JumpStart, Jump, JumpUpWall, LaunchCharacter, SetMovementMode]
  rw [if_neg (by rw [h]; decide), if_pos h]
  exact ⟨rfl, rfl, rfl, rfl, rfl⟩


/-! ## Invariants of the event sequences: proofs -/

theorem WallJumpInvariant_DetachFromWall (s : Character) :
    WallJumpInvariant (DetachFromWall s) :=
  ⟨fun h => absurd h (DetachFromWall_mode_ne s), fun _ _ => DetachFromWall_bClimbing s⟩

theorem StrictInvariant_DetachFromWall (s : Character) :
    StrictInvariant (DetachFromWall s) :=
  ⟨fun h => absurd h (DetachFromWall_mode_ne s),
    fun _ => ⟨DetachFromWall_bClimbing s, DetachFromWall_orient s⟩⟩

theorem WallJumpInvariant_AttachToWall (env : Engine) (s : Character) :
    WallJumpInvariant (AttachToWall env s) := by
  rcases AttachToWall_cases env s with h | ⟨hm, ho, _⟩
  · rw [h]; exact WallJumpInvariant_DetachFromWall s
  · exact ⟨fun _ => ho, fun hne => absurd hm hne⟩

theorem StrictInvariant_AttachToWall (env : Engine) (s : Character) :
    StrictInvariant (AttachToWall env s) := by
  rcases AttachToWall_cases env s with h | ⟨hm, ho, _⟩
  · rw [h]; exact StrictInvariant_DetachFromWall s
  · exact ⟨fun _ => ho, fun hne => absurd hm hne⟩

theorem WallJumpInvariant_VaultUp (FirstLoc SecondLoc : FVector) (s : Character) :
    WallJumpInvariant (VaultUp FirstLoc SecondLoc s) :=
  ⟨fun h => absurd h (VaultUp_mode_ne FirstLoc SecondLoc s),
    fun _ _ => VaultUp_bClimbing FirstLoc SecondLoc s⟩

theorem StrictInvariant_VaultUp (FirstLoc SecondLoc : FVector) (s : Character) :
    StrictInvariant (VaultUp FirstLoc SecondLoc s) :=
  ⟨fun h => absurd h (VaultUp_mode_ne FirstLoc SecondLoc s),
    fun _ => ⟨VaultUp_bClimbing FirstLoc SecondLoc s, VaultUp_orient FirstLoc SecondLoc s⟩⟩

theorem WallJumpInvariant_perform (env : Engine) (a : Action) (s : Character)
    (hinv : WallJumpInvariant s) (hg : FacadeGuard a s) :
    WallJumpInvariant (perform env a s) := by
  cases a with
  | ToggleGrab =>
    simp only [perform, HandleWallGrab]
    split_ifs
    · exact WallJumpInvariant_AttachToWall env s
    · exact WallJumpInvariant_DetachFromWall s
    · exact hinv
  | Attach => exact WallJumpInvariant_AttachToWall env s
  | Detach => exact WallJumpInvariant_DetachFromWall s
  | JumpPress =>
    simp only [perform]
    by_cases hm : s.MovementMode = EMovementMode.MOVE_Flying
    · obtain ⟨h1, h2, _, _, _⟩ := JumpStart_of_eq env s hm
      refine ⟨fun h => ?_, fun _ ho => ?_⟩
      · rw [h1] at h; exact absurd h (by decide)
      · rw [h2, hinv.1 hm] at ho; exact absurd ho (by decide)
    · obtain ⟨h1, h2, h3, _, _⟩ := JumpStart_of_ne env s hm
      refine ⟨fun h => ?_, fun _ ho => ?_⟩
      · rw [h1] at h; exact absurd h hm
      · rw [h3]; rw [h2] at ho; exact hinv.2 hm ho
  | OnJumpApex =>
    simp only [perform, CharacterReachedJumpApex]
    split_ifs
    · exact WallJumpInvariant_AttachToWall env s
    · exact hinv
  | OnLanded => exact hinv
  | StepAlongWall Axis Direction bVertical =>
    have hm : s.MovementMode = EMovementMode.MOVE_Flying := hg
    simp only [perform]
    rcases WallClimbMovement_cases env Axis Direction bVertical s with
      h | ⟨h1, h2, _⟩ | ⟨FirstLoc, SecondLoc, h⟩
    · rw [h]; exact hinv
    · refine ⟨fun _ => ?_, fun hne => ?_⟩
      · rw [h2]; exact hinv.1 hm
      · rw [h1] at hne; exact absurd hm hne
    · rw [h]; exact WallJumpInvariant_VaultUp FirstLoc SecondLoc s
  | VaultUp FirstLoc SecondLoc => exact WallJumpInvariant_VaultUp FirstLoc SecondLoc s

theorem StrictInvariant_perform (env : Engine) (a : Action) (s : Character)
    (hinv : StrictInvariant s) (hg : NoWallJumpGuard a s) :
    StrictInvariant (perform env a s) := by
  cases a with
  | ToggleGrab =>
    simp only [perform, HandleWallGrab]
    split_ifs
    · exact StrictInvariant_AttachToWall env s
    · exact StrictInvariant_DetachFromWall s
    · exact hinv
  | Attach => exact StrictInvariant_AttachToWall env s
  | Detach => exact StrictInvariant_DetachFromWall s
  | JumpPress =>
    have hm : s.MovementMode ≠ EMovementMode.MOVE_Flying := hg.2 rfl
    simp only [perform]
    obtain ⟨h1, h2, h3, _, _⟩ := JumpStart_of_ne env s hm
    refine ⟨fun h => ?_, fun _ => ?_⟩
    · rw [h1] at h; exact absurd h hm
    · rw [h2, h3]; exact hinv.2 hm
  | OnJumpApex =>
    simp only [perform, CharacterReachedJumpApex]
    split_ifs
    · exact StrictInvariant_AttachToWall env s
    · exact hinv
  | OnLanded => exact hinv
  | StepAlongWall Axis Direction bVertical =>
    have hm : s.MovementMode = EMovementMode.MOVE_Flying := hg.1
    simp only [perform]
    rcases WallClimbMovement_cases env Axis Direction bVertical s with
      h | ⟨h1, h2, _⟩ | ⟨FirstLoc, SecondLoc, h⟩
    · rw [h]; exact hinv
    · refine ⟨fun _ => ?_, fun hne => ?_⟩
      · rw [h2]; exact hinv.1 hm
      · rw [h1] at hne; exact absurd hm hne
    · rw [h]; exact StrictInvariant_VaultUp FirstLoc SecondLoc s
  | VaultUp FirstLoc SecondLoc => exact StrictInvariant_VaultUp FirstLoc SecondLoc s

theorem WallJumpInvariant_of_reachable (s : Character) (h : Reachable s) :
    WallJumpInvariant s := by
  induction h with
  | init s hs =>
    obtain ⟨hm, hc, _⟩ := hs
    refine ⟨fun hf => ?_, fun _ _ => hc⟩
    rcases hm with hm | hm <;> rw [hm] at hf <;> exact absurd hf (by decide)
  | step env a s _ hg ih => exact WallJumpInvariant_perform env a s ih hg

theorem StrictInvariant_of_reachable (s : Character) (h : ReachableBy NoWallJumpGuard s) :
    StrictInvariant s := by
  induction h with
  | init s hs =>
    obtain ⟨hm, hc, ho⟩ := hs
    refine ⟨fun hf => ?_, fun _ => ⟨hc, ho⟩⟩
    rcases hm with hm | hm <;> rw [hm] at hf <;> exact absurd hf (by decide)
  | step env a s _ hg ih => exact StrictInvariant_perform env a s ih hg

/-! ## Reachability of the test inputs -/

theorem initial_spawned : InitialState spawned :=
  ⟨Or.inl rfl, rfl, rfl⟩

theorem reachable_onWall (allowed : Action → Character → Prop)
    (h : allowed Action.Attach spawned) : ReachableBy allowed onWall := by
  have h1 := ReachableBy.step flatWallWorld Action.Attach spawned
    (ReachableBy.init spawned initial_spawned) h
  simpa only [perform, attach_spawned] using h1

theorem reachable_climbing (allowed : Action → Character → Prop)
    (h : allowed Action.Attach spawned)
    (h2 : allowed (Action.StepAlongWall 1 ⟨0, 0, 1⟩ true) onWall) :
    ReachableBy allowed climbing := by
  have h1 := ReachableBy.step flatWallWorld (Action.StepAlongWall 1 ⟨0, 0, 1⟩ true) onWall
    (reachable_onWall allowed h) h2
  simpa only [perform, step_onWall] using h1

theorem reachable_wallJumped : Reachable wallJumped := by
  have h1 := ReachableBy.step flatWallWorld Action.JumpPress climbing
    (reachable_climbing FacadeGuard trivial rfl) trivial
  simpa only [perform, jump_climbing] using h1

theorem reachable_wallJumpedAtOnce : Reachable wallJumpedAtOnce := by
  have h1 := ReachableBy.step flatWallWorld Action.JumpPress onWall
    (reachable_onWall FacadeGuard trivial) trivial
  simpa only [perform, jump_onWall] using h1

theorem noWallJump_attach (s : Character) : NoWallJumpGuard Action.Attach s :=
  ⟨trivial, fun h => Action.noConfusion h⟩

theorem noWallJump_step_onWall :
    NoWallJumpGuard (Action.StepAlongWall 1 ⟨0, 0, 1⟩ true) onWall :=
  ⟨rfl, fun h => Action.noConfusion h⟩

theorem noWallJump_detach (s : Character) : NoWallJumpGuard Action.Detach s :=
  ⟨trivial, fun h => Action.noConfusion h⟩

/-! ## Detach -/

/-- C1, as stated, fails: detaching the leaning character (pitch 20, yaw 90, roll 30)
leaves its roll at 30, so that bClimbing false, pitch 0, roll 0 and yaw preserved do not
all hold after `DetachFromWall`. -/
theorem detach_roll_counterexample :
    (DetachFromWall leaning).Rotation.Roll = 30 ∧
    ¬ ((DetachFromWall leaning).bClimbing = false ∧
        (DetachFromWall leaning).Rotation.Pitch = 0 ∧
        (DetachFromWall leaning).Rotation.Roll = 0 ∧
        (DetachFromWall leaning).Rotation.Yaw = leaning.Rotation.Yaw) := by
  have h : (DetachFromWall leaning).Rotation.Roll = 30 := by
    simp [DetachFromWall, ResetRotation, SetActorRotation, SetMovementMode, leaning, climbing,
      onWall, spawned]
  refine ⟨h, fun hc => ?_⟩
  rw [h] at hc
  exact absurd hc.2.2.1 (by norm_num)

/-- C1, amended: for every prior state, after `DetachFromWall` bClimbing is false, the
pitch is 0, and the yaw and the roll are those before the call. -/
theorem detach_flags_and_rotation (s : Character) :
    (DetachFromWall s).bClimbing = false ∧
    (DetachFromWall s).Rotation.Pitch = 0 ∧
    (DetachFromWall s).Rotation.Yaw = s.Rotation.Yaw ∧
    (DetachFromWall s).Rotation.Roll = s.Rotation.Roll := by
  refine ⟨DetachFromWall_bClimbing s, ?_, ?_, ?_⟩ <;>
    simp only [DetachFromWall, ResetRotation, SetActorRotation, SetMovementMode] <;>
    split_ifs <;> rfl

/-! ## Invariants -/

/-- C2, as stated, fails: the state reached from `spawned` by Attach, one step up the
wall and a jump press is reachable, its movement mode is `MOVE_Walking`, and its bClimbing
is true. -/
theorem bClimbing_off_wall_counterexample :
    Reachable wallJumped ∧
    wallJumped.MovementMode = EMovementMode.MOVE_Walking ∧
    ¬ (wallJumped.MovementMode ≠ EMovementMode.MOVE_Flying → wallJumped.bClimbing = false) := by
  refine ⟨reachable_wallJumped, rfl, fun h => ?_⟩
  have h2 : wallJumped.bClimbing = false := h (by decide)
  exact absurd h2 (by decide)

/-- C2, amended: in a state whose movement mode is not `MOVE_Flying`, bClimbing is false
if the state is reachable without a jump press on the wall; and in every reachable state
(jump presses on the wall included) bClimbing is false if moreover the rotation is
oriented to the movement. -/
theorem bClimbing_false_off_wall (s : Character)
    (hm : s.MovementMode ≠ EMovementMode.MOVE_Flying) :
    (ReachableBy NoWallJumpGuard s → s.bClimbing = false) ∧
    (Reachable s → s.bOrientRotationToMovement = true → s.bClimbing = false) :=
  ⟨fun h => ((StrictInvariant_of_reachable s h).2 hm).1,
    fun h ho => (WallJumpInvariant_of_reachable s h).2 hm ho⟩

/-- Witness of C2, amended: the character dropped from the wall after one step up. -/
theorem bClimbing_false_off_wall_witness :
    (perform flatWallWorld Action.Detach climbing).MovementMode ≠ EMovementMode.MOVE_Flying ∧
    ReachableBy NoWallJumpGuard (perform flatWallWorld Action.Detach climbing) ∧
    (perform flatWallWorld Action.Detach climbing).bClimbing = false :=
  have hr : ReachableBy NoWallJumpGuard (perform flatWallWorld Action.Detach climbing) :=
    ReachableBy.step flatWallWorld Action.Detach climbing
      (reachable_climbing NoWallJumpGuard (noWallJump_attach spawned) noWallJump_step_onWall)
      (noWallJump_detach climbing)
  ⟨DetachFromWall_mode_ne climbing, hr,
    (bClimbing_false_off_wall (perform flatWallWorld Action.Detach climbing)
      (DetachFromWall_mode_ne climbing)).1 hr⟩

/-- C3, as stated, fails: the state reached from `spawned` by Attach and a jump press is
reachable, its movement mode is `MOVE_Walking`, and its rotation is not oriented to the
movement. -/
theorem orient_iff_counterexample :
    Reachable wallJumpedAtOnce ∧
    wallJumpedAtOnce.MovementMode = EMovementMode.MOVE_Walking ∧
    wallJumpedAtOnce.bOrientRotationToMovement = false ∧
    ¬ (wallJumpedAtOnce.MovementMode = EMovementMode.MOVE_Flying ↔
        wallJumpedAtOnce.bOrientRotationToMovement = false) := by
  refine ⟨reachable_wallJumpedAtOnce, rfl, rfl, fun h => ?_⟩
  have h2 : wallJumpedAtOnce.MovementMode = EMovementMode.MOVE_Flying := h.2 rfl
  exact absurd h2 (by decide)

/-- C3, amended: in every reachable state whose movement mode is `MOVE_Flying` the
rotation is not oriented to the movement; and in every state reachable without a jump
press on the wall, the movement mode is `MOVE_Flying` if and only if the rotation is not
oriented to the movement. -/
theorem orient_disabled_on_wall (s : Character) :
    (Reachable s → s.MovementMode = EMovementMode.MOVE_Flying →
      s.bOrientRotationToMovement = false) ∧
    (ReachableBy NoWallJumpGuard s →
      (s.MovementMode = EMovementMode.MOVE_Flying ↔ s.bOrientRotationToMovement = false)) := by
  refine ⟨fun h hm => (WallJumpInvariant_of_reachable s h).1 hm, fun h => ⟨fun hm => ?_, fun ho => ?_⟩⟩
  · exact (StrictInvariant_of_reachable s h).1 hm
  · by_contra hm
    have h2 := ((StrictInvariant_of_reachable s h).2 hm).2
    rw [ho] at h2
    exact absurd h2 (by decide)

/-- Witness of C3, amended: the character hanging on the wall. -/
theorem orient_disabled_on_wall_witness :
    Reachable onWall ∧ onWall.MovementMode = EMovementMode.MOVE_Flying ∧
    onWall.bOrientRotationToMovement = false ∧
    ReachableBy NoWallJumpGuard onWall ∧
    (onWall.MovementMode = EMovementMode.MOVE_Flying ↔
      onWall.bOrientRotationToMovement = false) :=
  ⟨reachable_onWall FacadeGuard trivial, rfl,
    (orient_disabled_on_wall onWall).1 (reachable_onWall FacadeGuard trivial) rfl,
    reachable_onWall NoWallJumpGuard (noWallJump_attach spawned),
    (orient_disabled_on_wall onWall).2
      (reachable_onWall NoWallJumpGuard (noWallJump_attach spawned))⟩

/-- C4, as stated, fails: the state reached through a wall jump has movement mode
`MOVE_Walking`, and `DetachFromWall` changes its bClimbing from true to false and its
orient-to-movement flag from false to true. -/
theorem detach_noop_counterexample :
    Reachable wallJumped ∧
    wallJumped.MovementMode = EMovementMode.MOVE_Walking ∧
    wallJumped.bClimbing = true ∧ (DetachFromWall wallJumped).bClimbing = false ∧
    wallJumped.bOrientRotationToMovement = false ∧
    (DetachFromWall wallJumped).bOrientRotationToMovement = true ∧
    DetachFromWall wallJumped ≠ wallJumped := by
  refine ⟨reachable_wallJumped, rfl, rfl, DetachFromWall_bClimbing _, rfl,
    DetachFromWall_orient _, fun h => ?_⟩
  have h2 := DetachFromWall_bClimbing wallJumped
  rw [h] at h2
  exact absurd h2 (by decide)

/-- C4, amended: in a state whose movement mode is not `MOVE_Flying`, `DetachFromWall`
sets bClimbing to false, the orient-to-movement flag to true and the pitch to 0 and
changes nothing else; it leaves the state as it was exactly when bClimbing was false,
the flag true and the pitch 0. -/
theorem detach_when_detached (s : Character)
    (hm : s.MovementMode ≠ EMovementMode.MOVE_Flying) :
    DetachFromWall s =
      { s with
        bClimbing := false
        bOrientRotationToMovement := true
        Rotation := ⟨0, s.Rotation.Yaw, s.Rotation.Roll⟩ } ∧
    (DetachFromWall s = s ↔
      s.bClimbing = false ∧ s.bOrientRotationToMovement = true ∧ s.Rotation.Pitch = 0) := by
  have h : DetachFromWall s =
      { s with
        bClimbing := false
        bOrientRotationToMovement := true
        Rotation := ⟨0, s.Rotation.Yaw, s.Rotation.Roll⟩ } := by
    simp only [DetachFromWall, ResetRotation, SetActorRotation, SetMovementMode]
    rw [if_neg hm]
  refine ⟨h, ⟨fun he => ?_, fun hc => ?_⟩⟩
  · rw [h] at he
    refine ⟨?_, ?_, ?_⟩
    · exact (congrArg Character.bClimbing he).symm
    · exact (congrArg Character.bOrientRotationToMovement he).symm
    · exact (congrArg (fun c => c.Rotation.Pitch) he).symm
  · rw [h]
    obtain ⟨h1, h2, h3⟩ := hc
    cases s with
    | mk m o n v j l r =>
      cases r
      simp_all

/-- Witness of C4, amended: detaching the spawned character changes nothing. -/
theorem detach_when_detached_witness :
    spawned.MovementMode ≠ EMovementMode.MOVE_Flying ∧ DetachFromWall spawned = spawned :=
  ⟨by decide, (detach_when_detached spawned (by decide)).2.mpr ⟨rfl, rfl, rfl⟩⟩

/-! ## Attach -/

theorem attachProbe_spawned :
    AttachProbe flatWallWorld spawned = (true, ⟨⟨42, 0, 0⟩, ⟨-1, 0, 0⟩⟩) := by
  norm_num [AttachProbe, WallTrace, flatWallWorld, spawned, ZeroVector, FVector.add_def,
    FVector.smul_def]

/-- C5: when the forward probe of `AttachToWall` hits at location L with normal N, then
after the call the movement mode is `MOVE_Flying`, the velocity is zero, the rotation is
not oriented to the movement, bClimbing and bCheckForApex are as before, and one move is
scheduled, to the position L + radius * N and to the rotation `MakeRotFromX (-N)`: for
N = (-1,0,0) the rotation `MakeRotFromX (1,0,0)`, and a rotation whose forward axis is -N
as soon as the forward axis of `MakeRotFromX (-N)` is -N. -/
theorem attach_on_hit (env : Engine) (s : Character) (L N : FVector)
    (h : AttachProbe env s = (true, ⟨L, N⟩)) :
    (AttachToWall env s).MovementMode = EMovementMode.MOVE_Flying ∧
    (AttachToWall env s).Velocity = ZeroVector ∧
    (AttachToWall env s).bOrientRotationToMovement = false ∧
    (AttachToWall env s).bClimbing = s.bClimbing ∧
    (AttachToWall env s).bCheckForApex = s.bCheckForApex ∧
    ∃ m : MoveRequest,
      (AttachToWall env s).LatentMoves = m :: s.LatentMoves ∧
      m.TargetLocation = L + s.CapsuleRadius * N ∧
      m.TargetRotation = env.MakeRotFromX (-N) ∧
      (N = ⟨-1, 0, 0⟩ → m.TargetRotation = env.MakeRotFromX ⟨1, 0, 0⟩) ∧
      (env.ForwardVector (env.MakeRotFromX (-N)) = -N →
        env.ForwardVector m.TargetRotation = -N) := by
  have h1 : (WallTrace env s.Location
      (s.Location + s.CapsuleRadius * 3 * env.ForwardVector s.Rotation)) = (true, ⟨L, N⟩) := h
  simp only [AttachToWall, h1, MoveComponentTo, SetMovementMode, StopMovementImmediately]
  refine ⟨rfl, rfl, rfl, rfl, rfl, _, rfl, FVector.add_swap _ _, rfl, fun hN => ?_, fun hf => hf⟩
  rw [hN]
  norm_num [FVector.neg_def]

/-- Witness of C5: the spawned character grabs the flat wall. -/
theorem attach_on_hit_witness :
    AttachProbe flatWallWorld spawned = (true, ⟨⟨42, 0, 0⟩, ⟨-1, 0, 0⟩⟩) ∧
    (AttachToWall flatWallWorld spawned).MovementMode = EMovementMode.MOVE_Flying :=
  ⟨attachProbe_spawned,
    (attach_on_hit flatWallWorld spawned ⟨42, 0, 0⟩ ⟨-1, 0, 0⟩ attachProbe_spawned).1⟩

/-- C6: when the forward probe of `AttachToWall` does not hit, the call yields the state
that `DetachFromWall` yields, schedules no move, and leaves a movement mode that is not
`MOVE_Flying`: it is `MOVE_Walking` or `MOVE_Falling` whenever the mode before the call
was one of walking, falling and flying, and `MOVE_Walking` when it was walking. -/
theorem attach_on_miss (env : Engine) (s : Character)
    (h : (AttachProbe env s).1 = false) :
    AttachToWall env s = DetachFromWall s ∧
    (AttachToWall env s).LatentMoves = s.LatentMoves ∧
    (AttachToWall env s).MovementMode ≠ EMovementMode.MOVE_Flying ∧
    (s.MovementMode = EMovementMode.MOVE_Walking ∨ s.MovementMode = EMovementMode.MOVE_Falling ∨
        s.MovementMode = EMovementMode.MOVE_Flying →
      (AttachToWall env s).MovementMode = EMovementMode.MOVE_Walking ∨
        (AttachToWall env s).MovementMode = EMovementMode.MOVE_Falling) ∧
    (s.MovementMode = EMovementMode.MOVE_Walking →
      (AttachToWall env s).MovementMode = EMovementMode.MOVE_Walking) := by
  have he : AttachToWall env s = DetachFromWall s := AttachToWall_miss env s h
  rw [he]
  refine ⟨rfl, DetachFromWall_LatentMoves s, DetachFromWall_mode_ne s, fun hm => ?_, fun hm => ?_⟩
  · rcases hm with hm | hm | hm
    · left; rw [DetachFromWall_mode_of_ne s (by rw [hm]; decide), hm]
    · right; rw [DetachFromWall_mode_of_ne s (by rw [hm]; decide), hm]
    · left; exact DetachFromWall_mode_of_eq s hm
  · rw [DetachFromWall_mode_of_ne s (by rw [hm]; decide), hm]

/-- Witness of C6: the spawned character grabs at nothing and stays walking. -/
theorem attach_on_miss_witness :
    (AttachProbe emptyWorld spawned).1 = false ∧
    AttachToWall emptyWorld spawned = DetachFromWall spawned ∧
    (AttachToWall emptyWorld spawned).MovementMode = EMovementMode.MOVE_Walking :=
  ⟨rfl, (attach_on_miss emptyWorld spawned rfl).1,
    (attach_on_miss emptyWorld spawned rfl).2.2.2.2 rfl⟩

/-! ## ToggleGrab, jump press, jump apex -/

/-- C7: `HandleWallGrab` yields the state of `AttachToWall` when the movement mode is
walking or falling, the state of `DetachFromWall` when it is flying, and the unchanged
state in every other movement mode. -/
theorem toggle_grab (env : Engine) (s : Character) :
    (s.MovementMode = EMovementMode.MOVE_Walking ∨ s.MovementMode = EMovementMode.MOVE_Falling →
      HandleWallGrab env s = AttachToWall env s) ∧
    (s.MovementMode = EMovementMode.MOVE_Flying → HandleWallGrab env s = DetachFromWall s) ∧
    (s.MovementMode ≠ EMovementMode.MOVE_Walking → s.MovementMode ≠ EMovementMode.MOVE_Falling →
      s.MovementMode ≠ EMovementMode.MOVE_Flying → HandleWallGrab env s = s) := by
  refine ⟨fun h => ?_, fun h => ?_, fun h1 h2 h3 => ?_⟩
  · simp only [HandleWallGrab]
    rw [if_pos h]
  · simp only [HandleWallGrab]
    rw [if_neg (by rw [h]; decide), if_pos h]
  · simp only [HandleWallGrab]
    rw [if_neg (by rintro (h | h) <;> contradiction), if_neg h3]

/-- Witness of C7: the grab of the spawned character attaches, the grab of the
character on the wall detaches, the grab of a swimming character changes nothing. -/
theorem toggle_grab_witness :
    HandleWallGrab flatWallWorld spawned = AttachToWall flatWallWorld spawned ∧
    HandleWallGrab flatWallWorld onWall = DetachFromWall onWall ∧
    HandleWallGrab flatWallWorld { spawned with MovementMode := EMovementMode.MOVE_Swimming }
      = { spawned with MovementMode := EMovementMode.MOVE_Swimming } :=
  ⟨(toggle_grab flatWallWorld spawned).1 (Or.inl rfl),
    (toggle_grab flatWallWorld onWall).2.1 rfl,
    (toggle_grab flatWallWorld { spawned with MovementMode := EMovementMode.MOVE_Swimming }).2.2
      (by decide) (by decide) (by decide)⟩

/-- C8: a jump press in movement mode `MOVE_Flying` leaves the mode `MOVE_Walking`,
requests a launch with velocity 600 times the up vector of the character, and sets
bCheckForApex; a jump press in any other mode does not go through `JumpUpWall` (the state
is that of the ordinary jump request when walking, and only the apex notification flag is
set otherwise): no launch is requested, bCheckForApex and the mode are as before. -/
theorem jump_press (env : Engine) (s : Character) :
    (s.MovementMode = EMovementMode.MOVE_Flying →
      JumpStart env s = JumpUpWall env { s with bNotifyApex := true } ∧
      (JumpStart env s).MovementMode = EMovementMode.MOVE_Walking ∧
      (JumpStart env s).Launches =
        ⟨(600 : ℚ) * env.UpVector s.Rotation, false, false⟩ :: s.Launches ∧
      (JumpStart env s).bCheckForApex = true) ∧
    (s.MovementMode ≠ EMovementMode.MOVE_Flying →
      JumpStart env s =
        (if s.MovementMode = EMovementMode.MOVE_Walking then Jump { s with bNotifyApex := true }
          else { s with bNotifyApex := true }) ∧
      (JumpStart env s).Launches = s.Launches ∧
      (JumpStart env s).bCheckForApex = s.bCheckForApex ∧
      (JumpStart env s).MovementMode = s.MovementMode) := by
  refine ⟨fun h => ?_, fun h => ?_⟩
  · obtain ⟨h1, _, _, h4, h5⟩ := JumpStart_of_eq env s h
    refine ⟨?_, h1, h5, h4⟩
    simp only [JumpStart]
    rw [if_neg (by rw [h]; decide), if_pos h]
  · obtain ⟨h1, _, _, h4, h5⟩ := JumpStart_of_ne env s h
    refine ⟨?_, h5, h4, h1⟩
    simp only [JumpStart]
    rw [if_neg h]

/-- Witness of C8: the jump press of the climbing character, and the jump press of the
spawned character. -/
theorem jump_press_witness :
    ((JumpStart flatWallWorld climbing).MovementMode = EMovementMode.MOVE_Walking ∧
      (JumpStart flatWallWorld climbing).bCheckForApex = true) ∧
    ((JumpStart flatWallWorld spawned).bCheckForApex = spawned.bCheckForApex ∧
      (JumpStart flatWallWorld spawned).MovementMode = spawned.MovementMode) :=
  ⟨⟨((jump_press flatWallWorld climbing).1 rfl).2.1, ((jump_press flatWallWorld climbing).1 rfl).2.2.2⟩,
    ⟨((jump_press flatWallWorld spawned).2 (by decide)).2.2.1,
      ((jump_press flatWallWorld spawned).2 (by decide)).2.2.2⟩⟩

/-- C9: `CharacterReachedJumpApex` yields the state of `AttachToWall` when bCheckForApex
is true, and the unchanged state when it is false. -/
theorem jump_apex (env : Engine) (s : Character) :
    (s.bCheckForApex = true → CharacterReachedJumpApex env s = AttachToWall env s) ∧
    (s.bCheckForApex = false → CharacterReachedJumpApex env s = s) := by
  refine ⟨fun h => ?_, fun h => ?_⟩ <;> simp [CharacterReachedJumpApex, h]

/-- Witness of C9: the apex of a wall jump, and the apex of an ordinary jump. -/
theorem jump_apex_witness :
    CharacterReachedJumpApex flatWallWorld wallJumped = AttachToWall flatWallWorld wallJumped ∧
    CharacterReachedJumpApex flatWallWorld spawned = spawned :=
  ⟨(jump_apex flatWallWorld wallJumped).1 rfl, (jump_apex flatWallWorld spawned).2 rfl⟩

/-! ## Aborted steps along the wall -/

/-- The body of `WallClimbMovement`, written with the names of the probes and angles. -/
theorem WallClimbMovement_eq (env : Engine) (Axis : ℚ) (Direction : FVector)
    (bVertical : Bool) (s : Character) :
    WallClimbMovement env Axis Direction bVertical s =
      if Axis = 0 then s
      else if (StepHit1 env Axis Direction bVertical s).1 = true then
        if TurnAngle env Axis Direction bVertical s > s.MaxTurnAngle then s
        else if ClimbAngle env Axis Direction bVertical s > s.MaxClimbAngle ∨
            ClimbAngle env Axis Direction bVertical s < s.MinClimbAngle then s
        else
          { SetActorRotation
              (env.RInterpTo s.Rotation
                (env.MakeRotFromX (-(StepHit1 env Axis Direction bVertical s).2.Normal))
                env.DeltaSeconds 5)
              (AddMovementInput
                (env.GetDirectionUnitVector s.Location
                  ((StepHit1 env Axis Direction bVertical s).2.Normal * s.CapsuleRadius
                    + (StepHit1 env Axis Direction bVertical s).2.Location) * SignOfFloat Axis)
                Axis s) with bClimbing := true }
      else if Direction = env.UpVector s.Rotation ∧ Axis > 0 ∧ s.bClimbing = true then
        if (!VaultObstructed env s) = true then
          VaultUp
            (VaultStart env s + env.ForwardVector s.Rotation * (30 : ℚ)
              + s.CapsuleRadius * (-2) * env.ForwardVector s.Rotation)
            (VaultStart env s + env.ForwardVector s.Rotation * (30 : ℚ)) s
        else s
      else s :=
  rfl

theorem stepHit1_sideways (env : Engine)
    (h : env.SweepBox = flatWallWorld.SweepBox)
    (hf : env.ForwardVector = flatWallWorld.ForwardVector) :
    StepHit1 env 1 ⟨0, 1, 0⟩ false onWall = (true, ⟨⟨42, 63, 0⟩, ⟨-1, 0, 0⟩⟩) := by
  norm_num [StepHit1, StepStart1, WallTrace, h, hf, flatWallWorld, onWall, spawned, ZeroVector,
    FVector.add_def, FVector.smul_def, FVector.mul_def]

/-- C10: `WallClimbMovement` returns the state unchanged (no movement input, same
position, rotation, movement mode, bClimbing and bCheckForApex) whenever the axis value
is 0, or the first probe hits and the angle between the two normals exceeds MaxTurnAngle,
or the first probe hits and the climb angle is below MinClimbAngle or above MaxClimbAngle,
or the first probe misses, the direction is the up vector, the axis value is positive,
bClimbing is set and the capsule sweep is blocked. -/
theorem step_aborts (env : Engine) (Axis : ℚ) (Direction : FVector) (bVertical : Bool)
    (s : Character)
    (h : Axis = 0 ∨
      ((StepHit1 env Axis Direction bVertical s).1 = true ∧
        TurnAngle env Axis Direction bVertical s > s.MaxTurnAngle) ∨
      ((StepHit1 env Axis Direction bVertical s).1 = true ∧
        (ClimbAngle env Axis Direction bVertical s < s.MinClimbAngle ∨
          ClimbAngle env Axis Direction bVertical s > s.MaxClimbAngle)) ∨
      ((StepHit1 env Axis Direction bVertical s).1 = false ∧
        Direction = env.UpVector s.Rotation ∧ Axis > 0 ∧ s.bClimbing = true ∧
        VaultObstructed env s = true)) :
    WallClimbMovement env Axis Direction bVertical s = s := by
  rw [WallClimbMovement_eq]
  rcases h with h | ⟨h1, h2⟩ | ⟨h1, h2⟩ | ⟨h1, h2, h3, h4, h5⟩
  · rw [if_pos h]
  · by_cases ha : Axis = 0
    · rw [if_pos ha]
    · rw [if_neg ha, if_pos h1, if_pos h2]
  · by_cases ha : Axis = 0
    · rw [if_pos ha]
    · rw [if_neg ha, if_pos h1]
      by_cases ht : TurnAngle env Axis Direction bVertical s > s.MaxTurnAngle
      · rw [if_pos ht]
      · rw [if_neg ht, if_pos (Or.symm h2)]
  · rw [if_neg (ne_of_gt h3), if_neg (by rw [h1]; decide), if_pos ⟨h2, h3, h4⟩,
      if_neg (by rw [h5]; decide)]

/-- Witness of C10: a step with axis value 0; a sideways step around a corner of 70
degrees against the limit of 65; a sideways step onto an overhang of 60 degrees against
the limit of 45; a step up without a wall ahead and with a ceiling above. -/
theorem step_aborts_witness :
    WallClimbMovement flatWallWorld 0 ⟨0, 1, 0⟩ false onWall = onWall ∧
    WallClimbMovement cornerWorld 1 ⟨0, 1, 0⟩ false onWall = onWall ∧
    WallClimbMovement overhangWorld 1 ⟨0, 1, 0⟩ false onWall = onWall ∧
    WallClimbMovement ceilingWorld 1 ⟨0, 0, 1⟩ true climbing = climbing :=
  ⟨step_aborts flatWallWorld 0 ⟨0, 1, 0⟩ false onWall (Or.inl rfl),
    step_aborts cornerWorld 1 ⟨0, 1, 0⟩ false onWall
      (Or.inr (Or.inl ⟨by rw [stepHit1_sideways cornerWorld rfl rfl], by
        norm_num [TurnAngle, cornerWorld, onWall, spawned]⟩)),
    step_aborts overhangWorld 1 ⟨0, 1, 0⟩ false onWall
      (Or.inr (Or.inr (Or.inl ⟨by rw [stepHit1_sideways overhangWorld rfl rfl], Or.inr (by
        norm_num [ClimbAngle, overhangWorld, onWall, spawned])⟩))),
    step_aborts ceilingWorld 1 ⟨0, 0, 1⟩ true climbing
      (Or.inr (Or.inr (Or.inr ⟨rfl, rfl, by norm_num, rfl, rfl⟩)))⟩

/-! ## Successful steps along the wall -/

theorem FVector.sub_def (a b : FVector) : a - b = ⟨a.X - b.X, a.Y - b.Y, a.Z - b.Z⟩ := rfl

theorem SignOfFloat_mul_self (A : ℚ) : SignOfFloat A * A = |A| := by
  unfold SignOfFloat
  split_ifs with h1 h2
  · rw [one_mul, abs_of_pos h1]
  · rw [neg_one_mul, abs_of_neg h2]
  · have h0 : A = 0 := le_antisymm (not_lt.mp h1) (not_lt.mp h2)
    rw [h0]
    simp

theorem StepTarget_eq (env : Engine) (Axis : ℚ) (Direction : FVector) (bVertical : Bool)
    (s : Character) :
    StepTarget env Axis Direction bVertical s =
      (StepHit1 env Axis Direction bVertical s).2.Location
        + s.CapsuleRadius * (StepHit1 env Axis Direction bVertical s).2.Normal := by
  unfold StepTarget
  rw [FVector.add_swap]
  rfl

theorem WallClimbMovement_moved (env : Engine) (Axis : ℚ) (Direction : FVector)
    (bVertical : Bool) (s : Character) (ha : Axis ≠ 0)
    (h1 : (StepHit1 env Axis Direction bVertical s).1 = true)
    (ht : TurnAngle env Axis Direction bVertical s ≤ s.MaxTurnAngle)
    (hc : s.MinClimbAngle ≤ ClimbAngle env Axis Direction bVertical s ∧
      ClimbAngle env Axis Direction bVertical s ≤ s.MaxClimbAngle) :
    WallClimbMovement env Axis Direction bVertical s =
      { SetActorRotation
          (env.RInterpTo s.Rotation
            (env.MakeRotFromX (-(StepHit1 env Axis Direction bVertical s).2.Normal))
            env.DeltaSeconds 5)
          (AddMovementInput
            (env.GetDirectionUnitVector s.Location (StepTarget env Axis Direction bVertical s)
              * SignOfFloat Axis)
            Axis s) with bClimbing := true } := by
  rw [WallClimbMovement_eq, if_neg ha, if_pos h1, if_neg (not_lt.mpr ht),
    if_neg (by rintro (h | h) <;> [exact absurd hc.2 (not_le.mpr h); exact absurd hc.1 (not_le.mpr h)])]
  rfl

theorem stepHit1_up (Axis : ℚ) (h : Axis = 1 ∨ Axis = -1) :
    StepHit1 flatWallWorld Axis ⟨0, 0, 1⟩ true onWall
      = (true, ⟨⟨42, 0, 96 * Axis⟩, ⟨-1, 0, 0⟩⟩) := by
  rcases h with h | h <;> rw [h] <;>
    norm_num [StepHit1, StepStart1, WallTrace, flatWallWorld, onWall, spawned, ZeroVector,
      FVector.add_def, FVector.smul_def, FVector.mul_def]

theorem turnAngle_up (Axis : ℚ) (h : Axis = 1 ∨ Axis = -1) :
    TurnAngle flatWallWorld Axis ⟨0, 0, 1⟩ true onWall = 0 := by
  unfold TurnAngle
  rw [stepHit1_up Axis h]
  norm_num [StepHit2, WallTrace, flatWallWorld, onWall, spawned, ZeroVector, Dot_VectorVector,
    FVector.add_def, FVector.smul_def]

/-- C11: when the axis value is not 0, the first probe hits, the angle between the two
normals is at most MaxTurnAngle and the climb angle lies between MinClimbAngle and
MaxClimbAngle (bounds included), `WallClimbMovement` sets bClimbing, keeps the movement
mode, and issues one movement input: direction u * sign(axis) with scale axis, where u is
the direction unit vector from the location of the character to the location of the
first hit plus the radius times its normal. The vector applied is axis * sign(axis) * u,
which is |axis| * u, a positive multiple of u for positive and negative axis alike. -/
theorem step_moves (env : Engine) (Axis : ℚ) (Direction : FVector) (bVertical : Bool)
    (s : Character) (ha : Axis ≠ 0)
    (h1 : (StepHit1 env Axis Direction bVertical s).1 = true)
    (ht : TurnAngle env Axis Direction bVertical s ≤ s.MaxTurnAngle)
    (hc : s.MinClimbAngle ≤ ClimbAngle env Axis Direction bVertical s ∧
      ClimbAngle env Axis Direction bVertical s ≤ s.MaxClimbAngle) :
    (WallClimbMovement env Axis Direction bVertical s).bClimbing = true ∧
    (WallClimbMovement env Axis Direction bVertical s).MovementMode = s.MovementMode ∧
    ∃ (r : InputRequest) (u : FVector),
      u = env.GetDirectionUnitVector s.Location
        ((StepHit1 env Axis Direction bVertical s).2.Location
          + s.CapsuleRadius * (StepHit1 env Axis Direction bVertical s).2.Normal) ∧
      (WallClimbMovement env Axis Direction bVertical s).MovementInputs
        = r :: s.MovementInputs ∧
      r.WorldDirection = u * SignOfFloat Axis ∧
      r.ScaleValue = Axis ∧
      r.Applied = (Axis * SignOfFloat Axis) * u ∧
      r.Applied = |Axis| * u ∧
      0 < |Axis| := by
  rw [WallClimbMovement_moved env Axis Direction bVertical s ha h1 ht hc,
    StepTarget_eq env Axis Direction bVertical s]
  refine ⟨rfl, rfl, _, _, rfl, rfl, rfl, rfl, ?_, ?_, abs_pos.mpr ha⟩
  · simp only [InputRequest.Applied, FVector.mul_def, FVector.smul_def, FVector.mk.injEq]
    refine ⟨?_, ?_, ?_⟩ <;> ring
  · simp only [InputRequest.Applied, FVector.mul_def, FVector.smul_def, FVector.mk.injEq,
      ← SignOfFloat_mul_self Axis]
    refine ⟨?_, ?_, ?_⟩ <;> ring

/-- Witness of C11: on the flat wall, a step up (axis 1) and a step down (axis -1). -/
theorem step_moves_witness :
    ((WallClimbMovement flatWallWorld 1 ⟨0, 0, 1⟩ true onWall).bClimbing = true ∧
      (WallClimbMovement flatWallWorld 1 ⟨0, 0, 1⟩ true onWall).MovementMode
        = onWall.MovementMode) ∧
    ((WallClimbMovement flatWallWorld (-1) ⟨0, 0, 1⟩ true onWall).bClimbing = true ∧
      (WallClimbMovement flatWallWorld (-1) ⟨0, 0, 1⟩ true onWall).MovementMode
        = onWall.MovementMode) :=
  have hup := step_moves flatWallWorld 1 ⟨0, 0, 1⟩ true onWall (by norm_num)
    (by rw [stepHit1_up 1 (Or.inl rfl)])
    (by rw [turnAngle_up 1 (Or.inl rfl)]; norm_num [onWall, spawned])
    (by norm_num [ClimbAngle, flatWallWorld, onWall, spawned])
  have hdown := step_moves flatWallWorld (-1) ⟨0, 0, 1⟩ true onWall (by norm_num)
    (by rw [stepHit1_up (-1) (Or.inr rfl)])
    (by rw [turnAngle_up (-1) (Or.inr rfl)]; norm_num [onWall, spawned])
    (by norm_num [ClimbAngle, flatWallWorld, onWall, spawned])
  ⟨⟨hup.1, hup.2.1⟩, ⟨hdown.1, hdown.2.1⟩⟩

/-! ## The vault -/

theorem VaultUp_ne_self (FirstLoc SecondLoc : FVector) (s : Character) :
    VaultUp FirstLoc SecondLoc s ≠ s := by
  intro h
  have h2 := congrArg (fun c => c.LatentMoves.length) h
  simp [VaultUp, MoveComponentTo, DetachFromWall_LatentMoves] at h2

theorem VaultUp_of_flying (FirstLoc SecondLoc : FVector) (s : Character)
    (hm : s.MovementMode = EMovementMode.MOVE_Flying) :
    (VaultUp FirstLoc SecondLoc s).MovementMode = EMovementMode.MOVE_Walking ∧
    (VaultUp FirstLoc SecondLoc s).LatentMoves =
      ⟨FirstLoc, ⟨0, s.Rotation.Yaw, s.Rotation.Roll⟩, false, true, 1 / 2⟩ :: s.LatentMoves := by
  simp [VaultUp, MoveComponentTo, DetachFromWall, ResetRotation, SetActorRotation,
    SetMovementMode, hm]

theorem stepHit1_emptyWorld (Axis : ℚ) (Direction : FVector) (bVertical : Bool)
    (s : Character) : (StepHit1 emptyWorld Axis Direction bVertical s).1 = false :=
  rfl

/-- C12: when the first probe of `WallClimbMovement` misses: if the character is in
movement mode `MOVE_Flying`, the direction is its up vector, the axis value is positive,
bClimbing is set and the capsule sweep at P = location + 2 * half height * up +
2 * radius * forward is not blocked, then the call is the call of `VaultUp` with the
forward target P + 30 * forward as second location and, as first location, the retreat
target, which is the forward target moved back by 2 * radius along forward; afterwards
the movement mode is `MOVE_Walking`, bClimbing is false, and exactly one move is
scheduled, to the retreat target. If the direction is not the up vector, or the axis
value is not positive, or bClimbing is not set, the state is unchanged and is not the
result of any call of `VaultUp`. -/
theorem step_vaults (env : Engine) (Axis : ℚ) (Direction : FVector) (bVertical : Bool)
    (s : Character) (h1 : (StepHit1 env Axis Direction bVertical s).1 = false) :
    (s.MovementMode = EMovementMode.MOVE_Flying → Direction = env.UpVector s.Rotation →
      Axis > 0 → s.bClimbing = true → VaultObstructed env s = false →
      WallClimbMovement env Axis Direction bVertical s
        = VaultUp (VaultFirstLoc env s) (VaultSecondLoc env s) s ∧
      VaultStart env s = s.Location + (2 * s.CapsuleHalfHeight) * env.UpVector s.Rotation
        + (2 * s.CapsuleRadius) * env.ForwardVector s.Rotation ∧
      VaultSecondLoc env s = VaultStart env s + (30 : ℚ) * env.ForwardVector s.Rotation ∧
      VaultFirstLoc env s
        = VaultSecondLoc env s - (2 * s.CapsuleRadius) * env.ForwardVector s.Rotation ∧
      (WallClimbMovement env Axis Direction bVertical s).MovementMode
        = EMovementMode.MOVE_Walking ∧
      (WallClimbMovement env Axis Direction bVertical s).bClimbing = false ∧
      (WallClimbMovement env Axis Direction bVertical s).LatentMoves =
        ⟨VaultFirstLoc env s, ⟨0, s.Rotation.Yaw, s.Rotation.Roll⟩, false, true, 1 / 2⟩
          :: s.LatentMoves) ∧
    (Direction ≠ env.UpVector s.Rotation ∨ ¬ Axis > 0 ∨ s.bClimbing = false →
      WallClimbMovement env Axis Direction bVertical s = s ∧
      ∀ FirstLoc SecondLoc : FVector,
        WallClimbMovement env Axis Direction bVertical s ≠ VaultUp FirstLoc SecondLoc s) := by
  refine ⟨fun hm hd ha hc hv => ?_, fun hn => ?_⟩
  · have he : WallClimbMovement env Axis Direction bVertical s
        = VaultUp (VaultFirstLoc env s) (VaultSecondLoc env s) s := by
      rw [WallClimbMovement_eq, if_neg (ne_of_gt ha), if_neg (by rw [h1]; decide),
        if_pos ⟨hd, ha, hc⟩, if_pos (by rw [hv]; rfl)]
      rfl
    rw [he]
    refine ⟨rfl, ?_, ?_, ?_, (VaultUp_of_flying _ _ s hm).1, VaultUp_bClimbing _ _ s,
      (VaultUp_of_flying _ _ s hm).2⟩
    · simp only [VaultStart, FVector.add_def, FVector.mul_def, FVector.smul_def,
        FVector.mk.injEq]
      refine ⟨?_, ?_, ?_⟩ <;> ring
    · simp only [VaultSecondLoc, FVector.add_def, FVector.mul_def, FVector.smul_def]
    · simp only [VaultFirstLoc, FVector.add_def, FVector.sub_def, FVector.mul_def,
        FVector.smul_def, FVector.mk.injEq]
      refine ⟨?_, ?_, ?_⟩ <;> ring
  · have he : WallClimbMovement env Axis Direction bVertical s = s := by
      rw [WallClimbMovement_eq]
      by_cases ha : Axis = 0
      · rw [if_pos ha]
      · rw [if_neg ha, if_neg (by rw [h1]; decide), if_neg]
        rintro ⟨hd, hp, hc⟩
        rcases hn with hn | hn | hn
        · exact hn hd
        · exact hn hp
        · rw [hn] at hc; exact absurd hc (by decide)
    rw [he]
    exact ⟨rfl, fun FirstLoc SecondLoc h => VaultUp_ne_self FirstLoc SecondLoc s h.symm⟩

/-- Witness of C12: above the top of the wall, the climbing character vaults on a push
up, and the character that has just attached does not. -/
theorem step_vaults_witness :
    (WallClimbMovement emptyWorld 1 ⟨0, 0, 1⟩ true climbing
        = VaultUp (VaultFirstLoc emptyWorld climbing) (VaultSecondLoc emptyWorld climbing)
            climbing ∧
      (WallClimbMovement emptyWorld 1 ⟨0, 0, 1⟩ true climbing).MovementMode
        = EMovementMode.MOVE_Walking) ∧
    WallClimbMovement emptyWorld 1 ⟨0, 0, 1⟩ true onWall = onWall :=
  have hv := (step_vaults emptyWorld 1 ⟨0, 0, 1⟩ true climbing
    (stepHit1_emptyWorld 1 ⟨0, 0, 1⟩ true climbing)).1 rfl rfl (by norm_num) rfl rfl
  ⟨⟨hv.1, hv.2.2.2.2.1⟩,
    ((step_vaults emptyWorld 1 ⟨0, 0, 1⟩ true onWall
      (stepHit1_emptyWorld 1 ⟨0, 0, 1⟩ true onWall)).2 (Or.inr (Or.inr rfl))).1⟩

end ClimbingSystem
